import Mathlib

/-!
Verification of the MCP Hub GUI shell (src/gui) against its design
specification.  The Python sources are shallowly embedded: widget state is
carried in explicit record types, stateful methods become state-passing
functions, the HTTP round trip and the JSON decoder are oracles passed in
as function arguments, and every catch-all except block becomes an Option
or an explicit raised flag.
-/

namespace MCPHub

/-! ### HTTP client (src/gui/hub_client.py) -/

/-- Request as assembled by MCPHubClient before it is handed to urlopen.
The JSON body is kept as the list of key/value pairs of the dict that the
code passes to the serializer. -/
structure Request where
  method : String
  url : String
  bodyPairs : List (String × String)
  contentType : String
deriving DecidableEq

/-- Outcome of one urlopen round trip: either the transport layer failed
(timeout, connection refused, ...) or a final HTTP response arrived with a
status code and a raw body. -/
inductive HttpOutcome where
  | transportError
  | response (status : Nat) (body : String)

/-- Predicate for a success status; urllib raises HTTPError for any final
status outside the 2xx range, which the client's catch-all turns into None. -/
def is2xx (status : Nat) : Bool :=
  200 ≤ status && status < 300

/-- Base URL, from MCPHubClient.base_url. -/
structure MCPHubClient where
  host : String
  port : Nat

def base_url (c : MCPHubClient) : String :=
  "http://" ++ c.host ++ ":" ++ toString c.port

/-- Request built by MCPHubClient._get. -/
def getRequest (c : MCPHubClient) (path : String) : Request :=
  { method := "GET", url := base_url c ++ path, bodyPairs := [], contentType := "" }

/-- Embedding of MCPHubClient._get.  fetch is the network oracle, parse the
JSON decoder (none models a json.loads failure).  Every failure path of the
code ends in the same catch-all except, so the function is total and
returns none there; it also returns the list of requests issued. -/
def runGet {α : Type} (fetch : Request → HttpOutcome) (parse : String → Option α)
    (c : MCPHubClient) (path : String) : List Request × Option α :=
  let req := getRequest c path
  ([req],
    match fetch req with
    | HttpOutcome.transportError => none
    | HttpOutcome.response status body =>
        if is2xx status then parse body else none)

/-- Request built by MCPHubClient._post; body defaults to the empty dict. -/
def postRequest (c : MCPHubClient) (path : String)
    (body : Option (List (String × String))) (query : String) : Request :=
  { method := "POST", url := base_url c ++ path ++ query,
    bodyPairs := body.getD [], contentType := "application/json" }

/-- Embedding of MCPHubClient._post, with the same failure model as _get. -/
def runPost {α : Type} (fetch : Request → HttpOutcome) (parse : String → Option α)
    (c : MCPHubClient) (path : String) (body : Option (List (String × String)))
    (query : String) : List Request × Option α :=
  let req := postRequest c path body query
  ([req],
    match fetch req with
    | HttpOutcome.transportError => none
    | HttpOutcome.response status body =>
        if is2xx status then parse body else none)

/-- MCPHubClient.get_health. -/
def get_health {α : Type} (fetch : Request → HttpOutcome) (parse : String → Option α)
    (c : MCPHubClient) : List Request × Option α :=
  runGet fetch parse c "/api/health"

/-- MCPHubClient.get_servers. -/
def get_servers {α : Type} (fetch : Request → HttpOutcome) (parse : String → Option α)
    (c : MCPHubClient) : List Request × Option α :=
  runGet fetch parse c "/api/servers"

/-- MCPHubClient.start_server. -/
def start_server {α : Type} (fetch : Request → HttpOutcome) (parse : String → Option α)
    (c : MCPHubClient) (name : String) : List Request × Option α :=
  runPost fetch parse c "/api/servers/start" (some [("server_name", name)]) ""

/-- MCPHubClient.stop_server: the query string is "?disable=true" when the
disable argument is true and empty otherwise, exactly as in the source. -/
def stop_server {α : Type} (fetch : Request → HttpOutcome) (parse : String → Option α)
    (c : MCPHubClient) (name : String) (disable : Bool) : List Request × Option α :=
  runPost fetch parse c "/api/servers/stop" (some [("server_name", name)])
    (if disable then "?disable=true" else "")

/-- MCPHubClient.refresh_server. -/
def refresh_server {α : Type} (fetch : Request → HttpOutcome) (parse : String → Option α)
    (c : MCPHubClient) (name : String) : List Request × Option α :=
  runPost fetch parse c "/api/servers/refresh" (some [("server_name", name)]) ""

/-- MCPHubClient.restart_hub. -/
def restart_hub {α : Type} (fetch : Request → HttpOutcome) (parse : String → Option α)
    (c : MCPHubClient) : List Request × Option α :=
  runPost fetch parse c "/api/restart" none ""

/-- Failure of a round trip in the sense of claim C2: transport error,
non-2xx final status, or a body the JSON decoder rejects. -/
def requestFails {α : Type} (parse : String → Option α) : HttpOutcome → Bool
  | HttpOutcome.transportError => true
  | HttpOutcome.response status body => !is2xx status || (parse body).isNone

/-- Specification-side request shape for claim C8: a stop request whose URL
always carries a disable query parameter spelling out the boolean argument.
This mirrors the claim's words, to be compared with the request the source
actually builds. -/
def specStopRequest (c : MCPHubClient) (name : String) (disable : Bool) : Request :=
  { method := "POST",
    url := base_url c ++ "/api/servers/stop" ++ "?disable=" ++
      (if disable then "true" else "false"),
    bodyPairs := [("server_name", name)],
    contentType := "application/json" }

/-- Oracle that fails every request; used for concrete instantiations. -/
def failFetch : Request → HttpOutcome := fun _ => HttpOutcome.transportError

/-- JSON decoder that rejects every body; used for concrete instantiations. -/
def noParse : String → Option Unit := fun _ => none

/-- Sample client at the default host and port. -/
def sampleClient : MCPHubClient := { host := "127.0.0.1", port := 3000 }

/-! ### Port entry parsing (src/gui/app.py, MCPHubApp._read_port) -/

/-- DEFAULT_PORT from app.py. -/
def DEFAULT_PORT : Int := 3000

/-- Zero code points of the Unicode decimal-digit (category Nd) runs, from
the Unicode 14.0 character database as shipped with CPython 3.11.  Every Nd
run is ten consecutive code points whose decimal values ascend from zero,
so a character is a decimal digit accepted by Python int() exactly when it
lies within ten code points of one of these zeros, and its value is the
offset from that zero. -/
def ndZeroStarts : List Nat := [
  0x30, 0x660, 0x6f0, 0x7c0, 0x966, 0x9e6, 0xa66, 0xae6, 0xb66, 0xbe6,
  0xc66, 0xce6, 0xd66, 0xde6, 0xe50, 0xed0, 0xf20, 0x1040, 0x1090, 0x17e0,
  0x1810, 0x1946, 0x19d0, 0x1a80, 0x1a90, 0x1b50, 0x1bb0, 0x1c40, 0x1c50,
  0xa620, 0xa8d0, 0xa900, 0xa9d0, 0xa9f0, 0xaa50, 0xabf0, 0xff10, 0x104a0,
  0x10d30, 0x11066, 0x110f0, 0x11136, 0x111d0, 0x112f0, 0x11450, 0x114d0,
  0x11650, 0x116c0, 0x11730, 0x118e0, 0x11950, 0x11c50, 0x11d50, 0x11da0,
  0x16a60, 0x16ac0, 0x16b50, 0x1d7ce, 0x1d7d8, 0x1d7e2, 0x1d7ec, 0x1d7f6,
  0x1e140, 0x1e2f0, 0x1e950, 0x1fbf0]

/-- Decimal value of a Unicode decimal digit, none for any other character:
the model of the digit classification and valuation Python int() applies
to each character of its input. -/
def pyDigitVal (c : Char) : Option Nat :=
  ndZeroStarts.findSome? (fun z =>
    if z ≤ c.toNat && c.toNat ≤ z + 9 then some (c.toNat - z) else none)

/-- Character accepted as a digit by Python int(). -/
def isPyDigit (c : Char) : Bool :=
  (pyDigitVal c).isSome

/-- Tail of a valid Python int literal after its first digit: further digits
with single underscores allowed only between two digits. -/
def pyDigitsTail : List Char → Bool
  | [] => true
  | ['_'] => false
  | '_' :: c :: rest => isPyDigit c && pyDigitsTail rest
  | c :: rest => isPyDigit c && pyDigitsTail rest

/-- Valid digit payload for Python int(): nonempty, starts with a digit, and
satisfies the underscore placement rule. -/
def pyDigits : List Char → Bool
  | [] => false
  | c :: rest => isPyDigit c && pyDigitsTail rest

/-- Numeric value of a digit payload (underscores dropped), each character
contributing its Unicode decimal value. -/
def digitsVal (l : List Char) : Nat :=
  (l.filter (fun c => c != '_')).foldl (fun n c => n * 10 + (pyDigitVal c).getD 0) 0

/-- Code points stripped by an argumentless Python str.strip: the Unicode
whitespace set of str.isspace (Unicode 14.0 / CPython 3.11), including the
ASCII separator controls 0x1c-0x1f. -/
def strStripCodes : List Nat := [
  0x9, 0xa, 0xb, 0xc, 0xd, 0x1c, 0x1d, 0x1e, 0x1f, 0x20, 0x85, 0xa0, 0x1680,
  0x2000, 0x2001, 0x2002, 0x2003, 0x2004, 0x2005, 0x2006, 0x2007, 0x2008,
  0x2009, 0x200a, 0x2028, 0x2029, 0x202f, 0x205f, 0x3000]

/-- Code points Python int() itself ignores around its argument.  CPython
first maps non-ASCII whitespace and non-ASCII decimal digits to ASCII and
then strips only ASCII whitespace, so the separator controls 0x1c-0x1f —
stripped by str.strip — are rejected by int() itself. -/
def intStripCodes : List Nat := [
  0x9, 0xa, 0xb, 0xc, 0xd, 0x20, 0x85, 0xa0, 0x1680, 0x2000, 0x2001, 0x2002,
  0x2003, 0x2004, 0x2005, 0x2006, 0x2007, 0x2008, 0x2009, 0x200a, 0x2028,
  0x2029, 0x202f, 0x205f, 0x3000]

/-- Character stripped by an argumentless str.strip. -/
def isStrSpace (c : Char) : Bool :=
  strStripCodes.contains c.toNat

/-- Character ignored by int() around its argument. -/
def isIntSpace (c : Char) : Bool :=
  intStripCodes.contains c.toNat

/-- Leading and trailing removal of the characters satisfying p. -/
def stripChars (p : Char → Bool) (l : List Char) : List Char :=
  ((l.dropWhile p).reverse.dropWhile p).reverse

/-- Model of an argumentless Python str.strip, as called in _read_port. -/
def pyStrip (s : String) : String :=
  String.mk (stripChars isStrSpace s.data)

/-- Embedding of Python int() on a string: surrounding int-whitespace is
ignored, an optional single ASCII sign precedes the digits, the digits are
Unicode decimal digits possibly separated by single underscores, and every
other input raises ValueError, modelled as none. -/
def pyInt (s : String) : Option Int :=
  match stripChars isIntSpace s.data with
  | '+' :: rest => if pyDigits rest then some (digitsVal rest : Int) else none
  | '-' :: rest => if pyDigits rest then some (-(digitsVal rest : Int)) else none
  | rest => if pyDigits rest then some (digitsVal rest : Int) else none

/-- Embedding of MCPHubApp._read_port: strip the entry text, parse it with
int(); on success return the value when it lies in 1..65535; on a parse
failure (ValueError) or an out-of-range value fall back to DEFAULT_PORT. -/
def read_port (entry : String) : Int :=
  match pyInt (pyStrip entry) with
  | some val => if 1 ≤ val && val ≤ 65535 then val else DEFAULT_PORT
  | none => DEFAULT_PORT

/-! ### Health polling (src/gui/app.py, MCPHubApp._poll_health) -/

/-- Observable action of one tick of the polling loop. -/
inductive PollAction where
  | fetchHealth
  | schedule (ms : Nat)
deriving DecidableEq

/-- Embedding of MCPHubApp._poll_health: the health fetch is issued only
when the hub_running flag is set, and the next tick is scheduled 3000
milliseconds later unconditionally. -/
def poll_health (hub_running : Bool) : List PollAction :=
  (if hub_running then [PollAction.fetchHealth] else []) ++ [PollAction.schedule 3000]

/-! ### Logs tab (src/gui/logs_tab.py) -/

/-- State of the LogsTab that the claims touch: the debug toggle, the value
of the level filter menu, the accumulated entries (the source stores only
the pair of level and message — no timestamp), and the rendered text area,
one line per tuple of displayed timestamp, level and message.  The clock is
passed in explicitly where the source calls datetime.now. -/
structure LogsState where
  show_debug : Bool
  selected : String
  log_entries : List (String × String)
  text : List (Nat × String × String)
deriving DecidableEq

/-- Embedding of LogsTab._passes_filter. -/
def passes_filter (st : LogsState) (level : String) : Bool :=
  if level = "DEBUG" ∧ st.show_debug = false then false
  else if st.selected ≠ "ALL" ∧ level ≠ st.selected then false
  else true

/-- Embedding of LogsTab.append_log: the timestamp is captured at append
time, the pair of level and message is appended to log_entries, and the
line is written to the text area only when the current filter passes. -/
def append_log (now : Nat) (st : LogsState) (level message : String) : LogsState :=
  let st1 := { st with log_entries := st.log_entries ++ [(level, message)] }
  if passes_filter st1 level then
    { st1 with text := st1.text ++ [(now, level, message)] }
  else st1

/-- Embedding of LogsTab._redraw: the text area is cleared and every stored
entry passing the current filter is rewritten — timestamped with the time
of the redraw, since the source stores no timestamp with the entry. -/
def redraw (now : Nat) (st : LogsState) : LogsState :=
  { st with
    text := (st.log_entries.filter (fun e => passes_filter st e.1)).map
      (fun e => (now, e.1, e.2)) }

/-- Embedding of LogsTab._clear_logs. -/
def clear_logs (st : LogsState) : LogsState :=
  { st with log_entries := [], text := [] }

/-- Fresh LogsTab state as built in LogsTab.__init__ and _build_ui. -/
def initLogs : LogsState :=
  { show_debug := false, selected := "ALL", log_entries := [], text := [] }

/-! ### Hub process lifecycle (src/gui/app.py) -/

/-- Failure environment for one toolbar toggle: whether Popen raises,
whether terminate raises, whether the graceful five second wait times out,
and whether the escalated kill raises. -/
structure Env where
  start_fails : Bool
  terminate_fails : Bool
  wait_times_out : Bool
  kill_fails : Bool
deriving DecidableEq

/-- Supervisor state of MCPHubApp: the hub_process field (process handles
are numbered), the hub_running flag, plus ghost bookkeeping — the list of
OS processes spawned by the app and currently alive, the next fresh handle
number, and the total number of spawns performed. -/
structure AppState where
  hub_process : Option Nat
  hub_running : Bool
  live : List Nat
  next_id : Nat
  spawns : Nat
deriving DecidableEq

/-- MCPHubApp.__init__ supervisor fields: no process, not running. -/
def initApp : AppState :=
  { hub_process := none, hub_running := false, live := [], next_id := 0, spawns := 0 }

/-- Embedding of MCPHubApp._start_hub (the lifecycle effects of its worker):
on a successful Popen the new handle is stored, the flag is set, and the
ghost spawn count grows; when Popen raises, the except arm only clears the
flag and leaves hub_process untouched — nothing is spawned. -/
def start_hub (env : Env) (s : AppState) : AppState :=
  if env.start_fails then
    { s with hub_running := false }
  else
    { s with
      hub_process := some s.next_id,
      hub_running := true,
      live := s.live ++ [s.next_id],
      next_id := s.next_id + 1,
      spawns := s.spawns + 1 }

/-- Embedding of MCPHubApp._stop_hub.  With a handle present, terminate and
a five second wait are attempted; on either failing, kill is attempted.  If
kill itself raises, the exception propagates out of _stop_hub before the
lines clearing hub_process and hub_running run, so the state is returned
unchanged with the raised flag true.  Otherwise the handle is cleared, the
flag dropped, and the process leaves the live list. -/
def stop_hub (env : Env) (s : AppState) : AppState × Bool :=
  match s.hub_process with
  | some h =>
      if env.terminate_fails || env.wait_times_out then
        if env.kill_fails then (s, true)
        else ({ s with hub_process := none, hub_running := false,
                       live := s.live.erase h }, false)
      else ({ s with hub_process := none, hub_running := false,
                     live := s.live.erase h }, false)
  | none => ({ s with hub_running := false }, false)

/-- Embedding of MCPHubApp._toggle_hub: stop when the running flag is set,
start otherwise.  A propagated stop exception leaves the state as stop_hub
left it. -/
def toggle_hub (env : Env) (s : AppState) : AppState :=
  if s.hub_running then (stop_hub env s).1 else start_hub env s

/-- Run a sequence of toolbar toggles from the initial state, each under
its own failure environment. -/
def run_toggles (envs : List Env) : AppState :=
  envs.foldl (fun s env => toggle_hub env s) initApp

/-- Reachability invariant of the toggle-driven lifecycle: either idle with
no handle and no live process, or running with exactly the one live process
the handle denotes. -/
def HubInv (s : AppState) : Prop :=
  (s.hub_running = false ∧ s.hub_process = none ∧ s.live = []) ∨
  (s.hub_running = true ∧ ∃ h, s.hub_process = some h ∧ s.live = [h])

/-- Environment in which every OS interaction succeeds. -/
def gracefulEnv : Env :=
  { start_fails := false, terminate_fails := false, wait_times_out := false,
    kill_fails := false }

/-- Environment in which the graceful path and the escalated kill all fail. -/
def allFailEnv : Env :=
  { start_fails := false, terminate_fails := true, wait_times_out := true,
    kill_fails := true }

/-- State of an app with one running hub process, handle number zero. -/
def runningState : AppState :=
  { hub_process := some 0, hub_running := true, live := [0], next_id := 1, spawns := 1 }

/-! ### Servers tab reconciliation (src/gui/servers_tab.py) -/

/-- Server summary fields that drive reconciliation and the tools list; the
name is optional because dict.get returns None when the key is missing. -/
structure SData where
  name : Option String
  tools : List String
deriving DecidableEq

/-- State of a ToolsList widget: its tools and whether it is expanded. -/
structure ToolsListState where
  tools : List String
  expanded : Bool
deriving DecidableEq

/-- ToolsList.__init__: the list starts collapsed. -/
def toolsListInit (tools : List String) : ToolsListState :=
  { tools := tools, expanded := false }

/-- State of a ServerCard: the stored server data and its tools list. -/
structure ServerCard where
  server_data : SData
  tools_list : ToolsListState
deriving DecidableEq

/-- ServerCard._build: constructs a fresh ToolsList from the data, so the
tools list of a freshly built card is collapsed. -/
def build_card (data : SData) : ServerCard :=
  { server_data := data, tools_list := toolsListInit data.tools }

/-- ServerCard.update_data: destroys every child widget of the card and
calls _build again on the new data — the card is rebuilt from scratch. -/
def update_data (_card : ServerCard) (data : SData) : ServerCard :=
  build_card data

/-- The cards dictionary of ServersTab, keyed by server name in insertion
order. -/
abbrev Cards := List (Option String × ServerCard)

/-- Keys of the cards dictionary. -/
def cardKeys (cards : Cards) : List (Option String) :=
  cards.map (fun p => p.1)

/-- Cards surviving the removal phase of ServersTab.refresh: those whose
name occurs in the fresh roster. -/
def keptCards (cards : Cards) (roster : List SData) : Cards :=
  cards.filter (fun p => decide (p.1 ∈ roster.map (fun s => s.name)))

/-- One iteration of the creation/update loop of ServersTab.refresh: an
existing card for the name is updated in place, otherwise a new card is
appended and the creation counter grows. -/
def refreshStep (st : Cards × Nat) (sdata : SData) : Cards × Nat :=
  if sdata.name ∈ cardKeys st.1 then
    (st.1.map (fun p => if p.1 = sdata.name then (p.1, update_data p.2 sdata) else p),
      st.2)
  else
    (st.1 ++ [(sdata.name, build_card sdata)], st.2 + 1)

/-- Embedding of ServersTab.refresh, returning the new cards dictionary,
the number of cards created and the number destroyed.  Cards absent from
the roster are destroyed first; with an empty roster the method returns
right after showing the empty label, otherwise it runs the creation/update
loop over the roster. -/
def refresh (cards : Cards) (roster : List SData) : Cards × Nat × Nat :=
  if roster.isEmpty then
    (keptCards cards roster, 0, cards.length - (keptCards cards roster).length)
  else
    ((roster.foldl refreshStep (keptCards cards roster, 0)).1,
     (roster.foldl refreshStep (keptCards cards roster, 0)).2,
     cards.length - (keptCards cards roster).length)

/-- Server summary used in concrete reconciliation scenarios. -/
def sampleSData : SData := { name := some "alpha", tools := ["read_file"] }

/-- Card for sampleSData whose tools list the user has expanded. -/
def expandedCard : ServerCard :=
  { server_data := sampleSData, tools_list := { tools := ["read_file"], expanded := true } }

end MCPHub

open MCPHub

theorem runGet_fails {α : Type} (fetch : Request → HttpOutcome)
    (parse : String → Option α) (c : MCPHubClient) (path : String)
    (h : requestFails parse (fetch (getRequest c path)) = true) :
    (runGet fetch parse c path).2 = none := by
  unfold runGet
  cases hf : fetch (getRequest c path) with
  | transportError => simp [hf]
  | response status body =>
      rw [hf] at h
      simp only [requestFails, Bool.or_eq_true, Bool.not_eq_true'] at h
      rcases h with h | h
      · simp [hf, h]
      · simp [hf, Option.isNone_iff_eq_none.mp h]

theorem runPost_fails {α : Type} (fetch : Request → HttpOutcome)
    (parse : String → Option α) (c : MCPHubClient) (path : String)
    (body : Option (List (String × String))) (query : String)
    (h : requestFails parse (fetch (postRequest c path body query)) = true) :
    (runPost fetch parse c path body query).2 = none := by
  unfold runPost
  cases hf : fetch (postRequest c path body query) with
  | transportError => simp [hf]
  | response status body =>
      rw [hf] at h
      simp only [requestFails, Bool.or_eq_true, Bool.not_eq_true'] at h
      rcases h with h | h
      · simp [hf, h]
      · simp [hf, Option.isNone_iff_eq_none.mp h]

theorem hubInv_toggle (env : Env) (s : AppState) (hs : HubInv s) :
    HubInv (toggle_hub env s) := by
  rcases hs with ⟨hr, hp, hl⟩ | ⟨hr, h, hp, hl⟩
  · unfold toggle_hub start_hub
    rw [hr]
    simp only [if_neg Bool.false_ne_true]
    by_cases hsf : env.start_fails
    · left
      simp [hsf, hr, hp, hl]
    · right
      simp [hsf, hl]
  · unfold toggle_hub stop_hub
    rw [hr, hp]
    simp only [if_pos rfl]
    by_cases hg : env.terminate_fails || env.wait_times_out
    · by_cases hk : env.kill_fails
      · right
        simp [hg, hk, hr]
        exact ⟨h, hp, hl⟩
      · left
        simp [hg, hk, hl]
    · left
      simp [hg, hl]

theorem hubInv_run (envs : List Env) : HubInv (run_toggles envs) := by
  have main : ∀ (l : List Env) (s : AppState), HubInv s →
      HubInv (l.foldl (fun s env => toggle_hub env s) s) := by
    intro l
    induction l with
    | nil => intro s hs; exact hs
    | cons e l ih =>
        intro s hs
        exact ih (toggle_hub e s) (hubInv_toggle e s hs)
  exact main envs initApp (Or.inl ⟨rfl, rfl, rfl⟩)

theorem cardKeys_map_update (cards : Cards) (nm : Option String) (d : SData) :
    cardKeys (cards.map (fun p => if p.1 = nm then (p.1, update_data p.2 d) else p)) =
      cardKeys cards := by
  induction cards with
  | nil => rfl
  | cons a l ih =>
      simp only [cardKeys, List.map_cons] at ih ⊢
      rw [ih]
      by_cases h : a.1 = nm <;> simp [h]

theorem mem_cardKeys_refreshStep (st : Cards × Nat) (d : SData) (x : Option String) :
    x ∈ cardKeys (refreshStep st d).1 ↔ x ∈ cardKeys st.1 ∨ x = d.name := by
  unfold refreshStep
  by_cases h : d.name ∈ cardKeys st.1
  · rw [if_pos h]
    simp only [cardKeys_map_update]
    constructor
    · exact Or.inl
    · rintro (hx | rfl)
      · exact hx
      · exact h
  · rw [if_neg h]
    simp [cardKeys]

theorem refreshStep_of_mem (st : Cards × Nat) (d : SData)
    (h : d.name ∈ cardKeys st.1) :
    (refreshStep st d).2 = st.2 ∧ cardKeys (refreshStep st d).1 = cardKeys st.1 := by
  simp [refreshStep, h, cardKeys_map_update]

theorem mem_cardKeys_foldl (roster : List SData) :
    ∀ (st : Cards × Nat) (x : Option String),
      x ∈ cardKeys (roster.foldl refreshStep st).1 ↔
        x ∈ cardKeys st.1 ∨ x ∈ roster.map (fun s => s.name) := by
  induction roster with
  | nil => simp
  | cons d roster ih =>
      intro st x
      simp only [List.foldl_cons, List.map_cons, List.mem_cons]
      rw [ih, mem_cardKeys_refreshStep]
      tauto

theorem foldl_no_creates (roster : List SData) :
    ∀ st : Cards × Nat, (∀ d ∈ roster, d.name ∈ cardKeys st.1) →
      (roster.foldl refreshStep st).2 = st.2 := by
  induction roster with
  | nil => intro st _; rfl
  | cons d roster ih =>
      intro st h
      have hd := h d (List.mem_cons_self d roster)
      have hstep := refreshStep_of_mem st d hd
      simp only [List.foldl_cons]
      rw [ih (refreshStep st d) ?_, hstep.1]
      intro d2 hd2
      rw [hstep.2]
      exact h d2 (List.mem_cons_of_mem d hd2)

theorem mem_cardKeys_keptCards (cards : Cards) (roster : List SData)
    (x : Option String) (hx : x ∈ cardKeys (keptCards cards roster)) :
    x ∈ roster.map (fun s => s.name) := by
  simp only [cardKeys, keptCards, List.mem_map] at hx
  rcases hx with ⟨p, hp, rfl⟩
  rcases List.mem_filter.mp hp with ⟨-, hdec⟩
  simpa using of_decide_eq_true hdec

theorem refresh_eq_of_ne (cards : Cards) (roster : List SData)
    (h : roster.isEmpty = false) :
    refresh cards roster =
      ((roster.foldl refreshStep (keptCards cards roster, 0)).1,
       (roster.foldl refreshStep (keptCards cards roster, 0)).2,
       cards.length - (keptCards cards roster).length) := by
  simp [refresh, h]

/-- Claim C2: for every API client operation (get_health, get_servers,
start_server, stop_server, refresh_server, restart_hub) and every input, if
the HTTP round trip suffers a transport error, returns a non-2xx status, or
yields a body that is not valid JSON, the operation returns the sentinel
none.  The embedding is total, which captures that the catch-all except in
_get and _post lets no exception reach the caller. -/
theorem client_ops_return_none_on_failure {α : Type}
    (fetch : Request → HttpOutcome) (parse : String → Option α)
    (c : MCPHubClient) (name : String) (disable : Bool)
    (h : ∀ req, requestFails parse (fetch req) = true) :
    (get_health fetch parse c).2 = none ∧
    (get_servers fetch parse c).2 = none ∧
    (start_server fetch parse c name).2 = none ∧
    (stop_server fetch parse c name disable).2 = none ∧
    (refresh_server fetch parse c name).2 = none ∧
    (restart_hub fetch parse c).2 = none :=
  ⟨runGet_fails fetch parse c _ (h _), runGet_fails fetch parse c _ (h _),
   runPost_fails fetch parse c _ _ _ (h _), runPost_fails fetch parse c _ _ _ (h _),
   runPost_fails fetch parse c _ _ _ (h _), runPost_fails fetch parse c _ _ _ (h _)⟩

/-- Witness for C2: the always-failing transport oracle at a concrete client
and server name satisfies the hypothesis, and every operation returns none. -/
theorem client_ops_return_none_on_failure_witness :
    (get_health failFetch noParse sampleClient).2 = none ∧
    (get_servers failFetch noParse sampleClient).2 = none ∧
    (start_server failFetch noParse sampleClient "fs").2 = none ∧
    (stop_server failFetch noParse sampleClient "fs" false).2 = none ∧
    (refresh_server failFetch noParse sampleClient "fs").2 = none ∧
    (restart_hub failFetch noParse sampleClient).2 = none :=
  client_ops_return_none_on_failure failFetch noParse sampleClient "fs" false
    (fun _ => rfl)

/-- Counterexample for C8 as stated: with disable set to false the client
does not put any disable query parameter on the URL, so the issued request
differs from the spec-side request that spells out disable=false. -/
theorem stop_server_no_param_when_disable_false :
    ¬ ((stop_server failFetch noParse sampleClient "fs" false).1 =
        [specStopRequest sampleClient "fs" false]) := by
  decide

/-- Claim C1: for every sequence of start and stop actions issued through
the toolbar toggle, at most one hub process handle exists at any instant —
the ghost list of live spawned processes never holds more than one element
— and a toggle arriving while the running flag is set takes the stop
branch: it spawns nothing and cannot grow the live list. -/
theorem single_handle_invariant :
    (∀ envs : List Env, (run_toggles envs).live.length ≤ 1) ∧
    (∀ (env : Env) (s : AppState), s.hub_running = true →
      (toggle_hub env s).spawns = s.spawns ∧
      (toggle_hub env s).live.length ≤ s.live.length) := by
  constructor
  · intro envs
    rcases hubInv_run envs with ⟨_, _, hl⟩ | ⟨_, h, _, hl⟩ <;> simp [hl]
  · intro env s hr
    unfold toggle_hub
    rw [hr]
    simp only [if_pos rfl]
    unfold stop_hub
    cases hp : s.hub_process with
    | none => simp
    | some h =>
        by_cases hg : (env.terminate_fails || env.wait_times_out) = true
        · by_cases hk : env.kill_fails = true
          · simp [hg, hk]
          · simp only [hg, if_pos rfl, hk, if_neg]
            simp only [Bool.not_eq_true] at hk
            simp [hk]
            exact ((s.live.erase_sublist h)).length_le
        · simp only [Bool.not_eq_true] at hg
          simp [hg]
          exact ((s.live.erase_sublist h)).length_le

/-- Witness for C1: a concrete two-toggle run keeps at most one live
process, and a toggle at the concrete running state spawns nothing. -/
theorem single_handle_invariant_witness :
    (run_toggles [gracefulEnv, gracefulEnv]).live.length ≤ 1 ∧
    ((toggle_hub gracefulEnv runningState).spawns = runningState.spawns ∧
      (toggle_hub gracefulEnv runningState).live.length ≤ runningState.live.length) :=
  ⟨single_handle_invariant.1 [gracefulEnv, gracefulEnv],
   single_handle_invariant.2 gracefulEnv runningState rfl⟩

/-- Counterexample for C3 as stated: when the graceful wait fails and the
escalated kill also raises, _stop_hub propagates the exception before the
lines clearing hub_process and hub_running run, so the handle survives the
stop request. -/
theorem stop_hub_kill_failure_keeps_handle :
    runningState.hub_process.isSome = true ∧
    ¬ ((stop_hub allFailEnv runningState).1.hub_process = none ∧
       (stop_hub allFailEnv runningState).1.hub_running = false) := by
  decide

/-- Claim C3 as amended: a stop request with a handle present ends with the
handle cleared and the running flag false whenever the graceful
terminate-and-wait succeeds or the escalated kill does not itself raise; in
those cases no exception escapes and a subsequent toggle takes the start
branch.  (When both the graceful path and kill fail, the exception
propagates and the handle remains set.) -/
theorem stop_hub_clears_state (env : Env) (s : AppState)
    (h : env.kill_fails = false ∨
      (env.terminate_fails = false ∧ env.wait_times_out = false)) :
    (stop_hub env s).1.hub_process = none ∧
    (stop_hub env s).1.hub_running = false ∧
    (stop_hub env s).2 = false ∧
    ∀ env2, toggle_hub env2 (stop_hub env s).1 = start_hub env2 (stop_hub env s).1 := by
  have h1 : (stop_hub env s).1.hub_process = none ∧
      (stop_hub env s).1.hub_running = false ∧ (stop_hub env s).2 = false := by
    unfold stop_hub
    cases hp : s.hub_process with
    | none => simp
    | some hh =>
        rcases h with hk | ⟨ht, hw⟩
        · by_cases hg : (env.terminate_fails || env.wait_times_out) = true
          · simp [hg, hk]
          · simp only [Bool.not_eq_true] at hg
            simp [hg]
        · simp [ht, hw]
  refine ⟨h1.1, h1.2.1, h1.2.2, ?_⟩
  intro env2
  unfold toggle_hub
  rw [h1.2.1]
  simp

/-- Witness for C3 amended: a graceful stop at the concrete running state
clears the handle and flag, raises nothing, and the next toggle starts. -/
theorem stop_hub_clears_state_witness :
    (stop_hub gracefulEnv runningState).1.hub_process = none ∧
    (stop_hub gracefulEnv runningState).1.hub_running = false ∧
    (stop_hub gracefulEnv runningState).2 = false ∧
    toggle_hub gracefulEnv (stop_hub gracefulEnv runningState).1 =
      start_hub gracefulEnv (stop_hub gracefulEnv runningState).1 :=
  ⟨(stop_hub_clears_state gracefulEnv runningState (Or.inl rfl)).1,
   (stop_hub_clears_state gracefulEnv runningState (Or.inl rfl)).2.1,
   (stop_hub_clears_state gracefulEnv runningState (Or.inl rfl)).2.2.1,
   (stop_hub_clears_state gracefulEnv runningState (Or.inl rfl)).2.2.2 gracefulEnv⟩

/-- Claim C9: for every string in the port entry field, the port used to
start the hub equals the entered value if it parses (after stripping
whitespace) as an integer in the inclusive range 1 to 65535, and equals the
default port 3000 otherwise (non-numeric text, empty string, or
out-of-range value). -/
theorem read_port_spec (entry : String) :
    (∀ v : Int, pyInt (pyStrip entry) = some v →
      ((1 ≤ v ∧ v ≤ 65535) → read_port entry = v) ∧
      (¬ (1 ≤ v ∧ v ≤ 65535) → read_port entry = 3000)) ∧
    (pyInt (pyStrip entry) = none → read_port entry = 3000) := by
  constructor
  · intro v hv
    have hrw : read_port entry = if 1 ≤ v && v ≤ 65535 then v else DEFAULT_PORT := by
      unfold read_port
      rw [hv]
    constructor
    · intro hrange
      rw [hrw, if_pos]
      simp only [Bool.and_eq_true, decide_eq_true_eq]
      exact hrange
    · intro hrange
      rw [hrw, if_neg]
      · rfl
      · simpa using hrange
  · intro hv
    unfold read_port
    rw [hv]
    rfl

/-- Witness for C9: concrete evaluations discharging each hypothesis — the
entry " 8080 " parses in range and yields 8080; the Arabic-Indic entry
٨٠٨٠ likewise yields 8080, as does a fullwidth entry wrapped in no-break
spaces; the entry "99999" parses out of range and falls back to 3000; the
entry "abc" fails to parse and falls back to 3000. -/
theorem read_port_spec_witness :
    read_port " 8080 " = 8080 ∧ read_port "٨٠٨٠" = 8080 ∧
    read_port "\u00A0１２３４\u00A0" = 1234 ∧
    read_port "99999" = 3000 ∧ read_port "abc" = 3000 :=
  ⟨((read_port_spec " 8080 ").1 8080 (by decide)).1 (by decide),
   ((read_port_spec "٨٠٨٠").1 8080 (by decide)).1 (by decide),
   ((read_port_spec "\u00A0１２３４\u00A0").1 1234 (by decide)).1 (by decide),
   ((read_port_spec "99999").1 99999 (by decide)).2 (by decide),
   (read_port_spec "abc").2 (by decide)⟩

/-- Claim C7: on every tick of the polling loop, a health request is issued
if and only if the running flag is set, and the next tick is rescheduled
3000 milliseconds later unconditionally, regardless of the running flag. -/
theorem poll_health_spec (hub_running : Bool) :
    (PollAction.fetchHealth ∈ poll_health hub_running ↔ hub_running = true) ∧
    PollAction.schedule 3000 ∈ poll_health hub_running ∧
    (∀ ms, PollAction.schedule ms ∈ poll_health hub_running → ms = 3000) := by
  cases hub_running <;>
    refine ⟨by simp [poll_health], by simp [poll_health], ?_⟩ <;>
    · intro ms hms
      simp [poll_health] at hms
      exact hms

/-- Witness for C7: at a tick with the running flag cleared the fetch is
absent and the 3000 ms reschedule present; the schedule hypothesis is
discharged at the concrete delay 3000. -/
theorem poll_health_spec_witness :
    (PollAction.fetchHealth ∈ poll_health false ↔ false = true) ∧
    PollAction.schedule 3000 ∈ poll_health false ∧ (3000 : Nat) = 3000 :=
  ⟨(poll_health_spec false).1, (poll_health_spec false).2.1,
   (poll_health_spec false).2.2 3000 (by decide)⟩

theorem passes_filter_iff (st : LogsState) (level : String) :
    passes_filter st level = true ↔
      ((level = "DEBUG" → st.show_debug = true) ∧
        (st.selected = "ALL" ∨ level = st.selected)) := by
  cases hd : st.show_debug <;>
    by_cases h1 : level = "DEBUG" <;>
    by_cases h2 : st.selected = "ALL" <;>
    by_cases h3 : level = st.selected <;>
    simp [passes_filter, hd, h1, h2, h3]

/-- Claim C10: an appended log entry is written to the visible log text if
and only if its level is not DEBUG or the Show DEBUG toggle is on, and the
selected level filter is ALL or equals the entry's level; in particular a
DEBUG entry stays hidden when the filter menu is set to DEBUG but the Show
DEBUG toggle is off. -/
theorem append_log_writes_iff (st : LogsState) (now : Nat) (level message : String) :
    ((append_log now st level message).text = st.text ++ [(now, level, message)] ∨
      (append_log now st level message).text = st.text) ∧
    ((append_log now st level message).text = st.text ++ [(now, level, message)] ↔
      ((level = "DEBUG" → st.show_debug = true) ∧
        (st.selected = "ALL" ∨ level = st.selected))) ∧
    passes_filter { st with selected := "DEBUG", show_debug := false } "DEBUG" = false := by
  have heq : passes_filter
      { st with log_entries := st.log_entries ++ [(level, message)] } level =
      passes_filter st level := rfl
  refine ⟨?_, ⟨?_, ?_⟩, by simp [passes_filter]⟩
  · by_cases h : passes_filter st level = true
    · left
      simp [append_log, heq, h]
    · right
      simp [append_log, heq, h]
  · intro htext
    by_cases h : passes_filter st level = true
    · exact (passes_filter_iff st level).mp h
    · exfalso
      have hsame : (append_log now st level message).text = st.text := by
        simp [append_log, heq, h]
      rw [hsame] at htext
      have := congrArg List.length htext
      simp at this
  · intro hr
    have h := (passes_filter_iff st level).mpr hr
    simp [append_log, heq, h]

/-- Claim C8 as amended: stop_server issues exactly one POST request to
/api/servers/stop whose body carries the server name under server_name; the
query string is ?disable=true when the disable argument is true and is
empty (no disable parameter) when it is false. -/
theorem stop_server_request_shape {α : Type}
    (fetch : Request → HttpOutcome) (parse : String → Option α)
    (c : MCPHubClient) (name : String) (disable : Bool) :
    (stop_server fetch parse c name disable).1 =
      [{ method := "POST",
         url := base_url c ++ "/api/servers/stop" ++
           (if disable then "?disable=true" else ""),
         bodyPairs := [("server_name", name)],
         contentType := "application/json" }] := by
  cases disable <;> rfl

/-- Claim C5: applying reconciliation twice in succession with the same
roster performs no card creations and no card destructions on the second
application. -/
theorem refresh_idempotent (cards : Cards) (roster : List SData) :
    (refresh (refresh cards roster).1 roster).2.1 = 0 ∧
    (refresh (refresh cards roster).1 roster).2.2 = 0 := by
  cases hne : roster.isEmpty
  case true =>
    have hnil : roster = [] := by
      cases roster with
      | nil => rfl
      | cons r rs => simp [List.isEmpty] at hne
    subst hnil
    simp [refresh, keptCards]
  case false =>
    have hfirst := refresh_eq_of_ne cards roster hne
    have hkeys : ∀ x ∈ cardKeys (refresh cards roster).1,
        x ∈ roster.map (fun s => s.name) := by
      intro x hx
      rw [hfirst] at hx
      rcases (mem_cardKeys_foldl roster _ x).mp hx with h | h
      · exact mem_cardKeys_keptCards cards roster x h
      · exact h
    have hkept2 : keptCards (refresh cards roster).1 roster = (refresh cards roster).1 := by
      unfold keptCards
      apply List.filter_eq_self.mpr
      intro p hp
      exact decide_eq_true (hkeys p.1 (List.mem_map_of_mem _ hp))
    have hsecond := refresh_eq_of_ne (refresh cards roster).1 roster hne
    constructor
    · rw [hsecond]
      show (roster.foldl refreshStep (keptCards (refresh cards roster).1 roster, 0)).2 = 0
      rw [hkept2]
      apply foldl_no_creates
      intro d hd
      rw [hfirst]
      exact (mem_cardKeys_foldl roster _ d.name).mpr
        (Or.inr (List.mem_map_of_mem _ hd))
    · rw [hsecond]
      show (refresh cards roster).1.length -
        (keptCards (refresh cards roster).1 roster).length = 0
      rw [hkept2]
      exact Nat.sub_self _

/-- Claim C4 evaluated at its failing input: a single displayed card named
alpha with its tools list expanded, refreshed with a roster that still
contains alpha.  Reconciliation destroys nothing — the removal half of the
claim holds — but the persisting card is rebuilt by update_data, so its
expanded flag drops from true back to false instead of being left
unchanged. -/
theorem refresh_resets_expanded :
    expandedCard.tools_list.expanded = true ∧
    (refresh [(some "alpha", expandedCard)] [sampleSData]).2.2 = 0 ∧
    (refresh [(some "alpha", expandedCard)] [sampleSData]).1 =
      [(some "alpha", build_card sampleSData)] ∧
    (build_card sampleSData).tools_list.expanded = false := by
  decide

/-- Claim C6 evaluated at its failing input: an entry appended at time 1 is
first displayed with its capture timestamp 1, but after a filter-triggered
redraw at time 2 — the stored sequence unchanged, since the source keeps
only level and message — the same entry is displayed with timestamp 2, not
its capture timestamp. -/
theorem redraw_restamps_timestamps :
    (append_log 1 initLogs "INFO" "hub started").text = [(1, "INFO", "hub started")] ∧
    (redraw 2 (append_log 1 initLogs "INFO" "hub started")).text =
      [(2, "INFO", "hub started")] ∧
    (redraw 2 (append_log 1 initLogs "INFO" "hub started")).log_entries =
      (append_log 1 initLogs "INFO" "hub started").log_entries := by
  decide

/-- Witness for C10: the theorem applied at a DEBUG entry appended to the
fresh logs state, where the toggle is off and the filter is ALL. -/
theorem append_log_writes_iff_witness :
    ((append_log 5 initLogs "DEBUG" "m").text = initLogs.text ++ [(5, "DEBUG", "m")] ∨
      (append_log 5 initLogs "DEBUG" "m").text = initLogs.text) ∧
    ((append_log 5 initLogs "DEBUG" "m").text = initLogs.text ++ [(5, "DEBUG", "m")] ↔
      (("DEBUG" = "DEBUG" → initLogs.show_debug = true) ∧
        (initLogs.selected = "ALL" ∨ "DEBUG" = initLogs.selected))) ∧
    passes_filter { initLogs with selected := "DEBUG", show_debug := false } "DEBUG" = false :=
  append_log_writes_iff initLogs 5 "DEBUG" "m"

/-- Witness for C5: the theorem applied at a concrete one-card dictionary
and one-entry roster. -/
theorem refresh_idempotent_witness :
    (refresh (refresh [(some "alpha", expandedCard)] [sampleSData]).1 [sampleSData]).2.1 = 0 ∧
    (refresh (refresh [(some "alpha", expandedCard)] [sampleSData]).1 [sampleSData]).2.2 = 0 :=
  refresh_idempotent [(some "alpha", expandedCard)] [sampleSData]

/-- Witness for C8 amended: the theorem applied at concrete arguments with
disable true. -/
theorem stop_server_request_shape_witness :
    (stop_server failFetch noParse sampleClient "fs" true).1 =
      [{ method := "POST",
         url := base_url sampleClient ++ "/api/servers/stop" ++
           (if true then "?disable=true" else ""),
         bodyPairs := [("server_name", "fs")],
         contentType := "application/json" }] :=
  stop_server_request_shape failFetch noParse sampleClient "fs" true
